import Mathlib

/-!
Verification of the CloudPanel Operation Orchestration Subsystem.

The definitions below are a shallow embedding of the shell sources:
  * `core/database.sh`                 — `update_operation_status`, helpers
  * `scripts/orchestrator/queue_worker.sh`   — the Dispatcher
  * `scripts/orchestrator/status_monitor.sh` — the Watchdog
  * `orchestrator/operation_types.conf`      — the shipped handler registry
The SQLite `operations` table is modelled as a `List Row`; time is a `Nat`
counting seconds, and SQL `datetime('now', '-X') > col` comparisons become
`col + X < now` (a SQL comparison against a NULL column is falsy, which is
modelled by `Option Nat` with `none` making the predicate false).
-/

namespace CloudPanel

/-- `status` column: the four states used by the subsystem. -/
inductive Status where
  | pending
  | processing
  | completed
  | failed
deriving DecidableEq, Repr

/-- `source` column: `api` (rows owned by this subsystem) or `ui`. -/
inductive Source where
  | api
  | ui
deriving DecidableEq, Repr

/-- One row of the `operations` table (also the shape of `operations_archive`). -/
structure Row where
  id : Nat
  type : String
  data : String
  status : Status
  source : Source
  retry_count : Nat
  error : Option String
  result : Option String
  created_at : Nat
  started_at : Option Nat
  completed_at : Option Nat
deriving DecidableEq, Repr

/-- `MAX_RETRIES=3` in `status_monitor.sh`. -/
def MAX_RETRIES : Nat := 3

/-- `STUCK_THRESHOLD=1800` (30 minutes) in `status_monitor.sh`. -/
def STUCK_THRESHOLD : Nat := 1800

/-- `MAX_OPERATION_TIME=3600` (1 hour) in `status_monitor.sh`. -/
def MAX_OPERATION_TIME : Nat := 3600

/-- Retention window of `cleanup_old_operations`: 30 days, in seconds. -/
def RETENTION_SECONDS : Nat := 2592000

/-- `UPDATE operations SET ... WHERE id = $op_id`: applies `f` to every row
whose `id` matches (ids are primary keys, so at most one in practice). -/
def updateById (opId : Nat) (f : Row → Row) (tbl : List Row) : List Row :=
  tbl.map (fun r => if r.id = opId then f r else r)

/-- `SELECT retry_count FROM operations WHERE id = $op_id`; an absent row
yields the empty string, which bash's `-lt` treats as 0. -/
def getRetryCount (tbl : List Row) (opId : Nat) : Nat :=
  ((tbl.find? (fun r => r.id == opId)).map Row.retry_count).getD 0

/-- `update_operation_status` from `core/database.sh`: `processing` sets
`started_at`, `completed` sets `completed_at`, `failed` sets `completed_at`
and `error`; any other status builds an empty SQL string (a no-op). -/
def update_operation_status (now : Nat) (tbl : List Row) (opId : Nat)
    (st : Status) (errMsg : String) : List Row :=
  match st with
  | .processing =>
      updateById opId (fun r => { r with status := .processing, started_at := some now }) tbl
  | .completed =>
      updateById opId (fun r => { r with status := .completed, completed_at := some now }) tbl
  | .failed =>
      updateById opId (fun r =>
        { r with status := .failed, completed_at := some now, error := some errMsg }) tbl
  | .pending => tbl

/-- Stable insertion by `created_at`, used to model `ORDER BY created_at ASC`. -/
def insertByCreated (r : Row) : List Row → List Row
  | [] => [r]
  | x :: xs => if r.created_at < x.created_at then r :: x :: xs else x :: insertByCreated r xs

/-- `ORDER BY created_at ASC` as a stable sort. -/
def sortByCreated (l : List Row) : List Row :=
  l.foldr insertByCreated []

/-- The Dispatcher's poll in `monitor_operations` (`queue_worker.sh`):
`SELECT id, type FROM operations WHERE status = 'pending' ORDER BY created_at ASC`.
Note: the shipped query has no `source` filter. -/
def pendingOps (tbl : List Row) : List (Nat × String) :=
  (sortByCreated (tbl.filter (fun r => r.status == Status.pending))).map
    (fun r => (r.id, r.type))

/-- Outcome of one `process_operation` call: the table afterwards, the
function's return code, and whether the external handler was invoked. -/
structure DispatchOutcome where
  table : List Row
  code : Nat
  invoked : Bool
deriving Repr

/-- Behaviour of an external handler executable, as an oracle: given the
script path, the operation type and id, and the table, it returns the table
it leaves behind and its exit code. -/
def HandlerBehavior : Type :=
  String → String → Nat → List Row → List Row × Nat

/-- `process_operation` from `queue_worker.sh`.  `handlers` is the
`OPERATION_HANDLERS` associative array, `is_x` models the `[[ -x ... ]]`
test on the whole registered string.  An empty mapping or a non-executable
path each write `failed` via `update_operation_status` and return 1; an
executable handler is run and its exit code returned, with no further
status write by the Dispatcher in either the zero or nonzero case. -/
def process_operation (handlers : String → String) (is_x : String → Bool)
    (hb : HandlerBehavior) (now : Nat) (tbl : List Row)
    (opId : Nat) (opType : String) : DispatchOutcome :=
  let handler_script := handlers opType
  if handler_script = "" then
    { table := update_operation_status now tbl opId .failed "No handler configured"
      code := 1, invoked := false }
  else if is_x handler_script then
    let res := hb handler_script opType opId tbl
    { table := res.1, code := res.2, invoked := true }
  else
    { table := update_operation_status now tbl opId .failed "Handler script not available"
      code := 1, invoked := false }

/-- One iteration of the Dispatcher's `while true` loop in
`monitor_operations`: query the pending operations once, then process each
in order against the evolving table. -/
def dispatcherCycle (handlers : String → String) (is_x : String → Bool)
    (hb : HandlerBehavior) (now : Nat) (tbl : List Row) : List Row :=
  (pendingOps tbl).foldl
    (fun acc p => (process_operation handlers is_x hb now acc p.1 p.2).table) tbl

/-- Selection predicate of `check_stuck_operations`:
`status = 'processing' AND datetime('now','-30 minutes') > started_at`. -/
def stuckPred (now : Nat) (r : Row) : Bool :=
  r.status == Status.processing &&
    (match r.started_at with
     | some t => decide (t + STUCK_THRESHOLD < now)
     | none => false)

/-- `handle_stuck_operation` from `status_monitor.sh`: re-reads the row's
`retry_count`; below `MAX_RETRIES` it resets the row to `pending` with
`retry_count + 1` and the retry note in `error`; otherwise it marks the row
`failed`.  Neither branch touches `started_at` or `completed_at`. -/
def handle_stuck_operation (tbl : List Row) (opId : Nat) : List Row :=
  if getRetryCount tbl opId < MAX_RETRIES then
    updateById opId (fun r =>
      { r with status := .pending, retry_count := r.retry_count + 1,
               error := some "Operation stuck - attempting retry" }) tbl
  else
    updateById opId (fun r =>
      { r with status := .failed,
               error := some "Operation failed after 3 retries" }) tbl

/-- `check_stuck_operations`: run the stuck query once, then handle each
returned id against the evolving table. -/
def check_stuck_operations (now : Nat) (tbl : List Row) : List Row :=
  ((tbl.filter (stuckPred now)).map Row.id).foldl handle_stuck_operation tbl

/-- Selection predicate of `check_timed_out_operations`:
`status = 'processing' AND datetime('now','-1 hour') > started_at`. -/
def timeoutPred (now : Nat) (r : Row) : Bool :=
  r.status == Status.processing &&
    (match r.started_at with
     | some t => decide (t + MAX_OPERATION_TIME < now)
     | none => false)

/-- `handle_timeout` from `status_monitor.sh`: identical retry-or-fail logic
to `handle_stuck_operation`, with the timeout wording. -/
def handle_timeout (tbl : List Row) (opId : Nat) : List Row :=
  if getRetryCount tbl opId < MAX_RETRIES then
    updateById opId (fun r =>
      { r with status := .pending, retry_count := r.retry_count + 1,
               error := some "Operation timed out - attempting retry" }) tbl
  else
    updateById opId (fun r =>
      { r with status := .failed,
               error := some "Operation timed out after 3 retries" }) tbl

/-- `check_timed_out_operations`. -/
def check_timed_out_operations (now : Nat) (tbl : List Row) : List Row :=
  ((tbl.filter (timeoutPred now)).map Row.id).foldl handle_timeout tbl

/-- One non-midnight iteration of the Watchdog's `monitor_status` loop:
the stuck check followed by the timeout check. -/
def watchdogCycle (now : Nat) (tbl : List Row) : List Row :=
  check_timed_out_operations now (check_stuck_operations now tbl)

/-- Selection predicate of `cleanup_old_operations`:
`status IN ('completed','failed') AND datetime('now','-30 days') > completed_at`. -/
def archivable (now : Nat) (r : Row) : Bool :=
  (r.status == Status.completed || r.status == Status.failed) &&
    (match r.completed_at with
     | some t => decide (t + RETENTION_SECONDS < now)
     | none => false)

/-- `cleanup_old_operations`: `INSERT INTO operations_archive SELECT * FROM
operations WHERE ...` followed by `DELETE FROM operations WHERE ...` with the
same condition, issued back to back.  Returns (live table, archive table). -/
def cleanup_old_operations (now : Nat) (live archive : List Row) :
    List Row × List Row :=
  (live.filter (fun r => !archivable now r),
   archive ++ live.filter (archivable now))

/-- Split a configuration line at its first `=`, as `IFS='=' read -r k v`
does: the key is everything before the first `=`, the value everything after
it; a line without `=` yields the whole line as key and an empty value. -/
def findEqSplit : List Char → Option (List Char × List Char)
  | [] => none
  | c :: cs =>
      if c = '=' then some ([], cs)
      else (findEqSplit cs).map (fun p => (c :: p.1, p.2))

/-- String-level wrapper around `findEqSplit`. -/
def splitConfLine (s : String) : String × String :=
  match findEqSplit s.data with
  | some (k, v) => (String.mk k, String.mk v)
  | none => (s, "")

/-- Loading of `OPERATION_HANDLERS` in `queue_worker.sh`: each line is split
at its first `=` and stored into the associative array (bash rejects the
empty subscript produced by a blank line, so those lines assign nothing).
An unmapped type looks up as the empty string. -/
def loadHandlers (lines : List String) : String → String :=
  lines.foldl
    (fun m line =>
      let kv := splitConfLine line
      if kv.1 = "" then m else fun k => if k = kv.1 then kv.2 else m k)
    (fun _ => "")

/-- The shipped `orchestrator/operation_types.conf`, verbatim. -/
def operationTypesConf : List String :=
  [ "# Site Operations",
    "site.create=/home/clp/scripts/sites/manage_site.sh create",
    "site.delete=/home/clp/scripts/sites/manage_site.sh delete",
    "site.update=/home/clp/scripts/sites/manage_site.sh update",
    "",
    "# User Operations",
    "user.create=/home/clp/scripts/user/manage_user.sh create",
    "user.delete=/home/clp/scripts/user/manage_user.sh delete",
    "user.reset_password=/home/clp/scripts/user/manage_user.sh reset_password",
    "",
    "# Database Operations",
    "database.create=/home/clp/scripts/databases/manage_database.sh create",
    "database.delete=/home/clp/scripts/databases/manage_database.sh delete",
    "database.export=/home/clp/scripts/databases/manage_database.sh export",
    "database.import=/home/clp/scripts/databases/manage_database.sh import",
    "database.backup=/home/clp/scripts/databases/manage_database.sh backup",
    "",
    "# Certificate Operations",
    "certificate.lets_encrypt=/home/clp/scripts/certificates/manage_certificates.sh install_lets_encrypt",
    "certificate.custom=/home/clp/scripts/certificates/manage_certificates.sh install_custom",
    "certificate.renew=/home/clp/scripts/certificates/manage_certificates.sh renew_domain",
    "certificate.renew_all=/home/clp/scripts/certificates/manage_certificates.sh renew_all",
    "",
    "# Maintenance Operations",
    "maintenance.full=/home/clp/scripts/maintenance/system_maintenance.sh full",
    "maintenance.logs=/home/clp/scripts/maintenance/system_maintenance.sh logs",
    "maintenance.backups=/home/clp/scripts/maintenance/system_maintenance.sh backups",
    "maintenance.cleanup=/home/clp/scripts/maintenance/system_maintenance.sh cleanup",
    "maintenance.optimize=/home/clp/scripts/maintenance/system_maintenance.sh optimize",
    "maintenance.security=/home/clp/scripts/maintenance/system_maintenance.sh security",
    "",
    "# Monitoring Operations",
    "monitoring.collect=/home/clp/scripts/monitoring/system_monitor.sh collect",
    "monitoring.clean=/home/clp/scripts/monitoring/system_monitor.sh clean",
    "monitoring.services=/home/clp/scripts/monitoring/system_monitor.sh services" ]

/-- The handler registry as loaded from the shipped configuration. -/
def shippedHandlers : String → String :=
  loadHandlers operationTypesConf

/-- The 24 operation types mapped by the shipped configuration. -/
def shippedTypes : List String :=
  [ "site.create", "site.delete", "site.update",
    "user.create", "user.delete", "user.reset_password",
    "database.create", "database.delete", "database.export",
    "database.import", "database.backup",
    "certificate.lets_encrypt", "certificate.custom",
    "certificate.renew", "certificate.renew_all",
    "maintenance.full", "maintenance.logs", "maintenance.backups",
    "maintenance.cleanup", "maintenance.optimize", "maintenance.security",
    "monitoring.collect", "monitoring.clean", "monitoring.services" ]

/-- Whether a string contains a space character. -/
def hasSpace (s : String) : Bool :=
  s.data.any (fun c => c = ' ')

/-- Modelled from the spec: the producer-side `enqueue` (the `sql/schema.sql`
referenced by `install.sh` and the API layer's `INSERT INTO operations` are
not among the sources).  Per §4.1, it inserts a new row with
`status=pending`, `retry_count=0`, `created_at=now` and the given source. -/
def enqueue (now newId : Nat) (ty payload : String) (src : Source)
    (tbl : List Row) : List Row :=
  tbl ++ [{ id := newId, type := ty, data := payload, status := .pending,
            source := src, retry_count := 0, error := none, result := none,
            created_at := now, started_at := none, completed_at := none }]

/-! ### Helper layer: the two Watchdog handlers as one parametrised sweep -/

/-- The reset branch of `handle_stuck_operation`, as a row function. -/
def resetStuck (r : Row) : Row :=
  { r with status := .pending, retry_count := r.retry_count + 1,
           error := some "Operation stuck - attempting retry" }

/-- The exhaustion branch of `handle_stuck_operation`, as a row function. -/
def failStuck (r : Row) : Row :=
  { r with status := .failed, error := some "Operation failed after 3 retries" }

/-- The reset branch of `handle_timeout`, as a row function. -/
def resetTimeout (r : Row) : Row :=
  { r with status := .pending, retry_count := r.retry_count + 1,
           error := some "Operation timed out - attempting retry" }

/-- The exhaustion branch of `handle_timeout`, as a row function. -/
def failTimeout (r : Row) : Row :=
  { r with status := .failed, error := some "Operation timed out after 3 retries" }

/-- Common shape of `handle_stuck_operation` and `handle_timeout`. -/
def stepUpd (reset fail : Row → Row) (tbl : List Row) (opId : Nat) : List Row :=
  if getRetryCount tbl opId < MAX_RETRIES then updateById opId reset tbl
  else updateById opId fail tbl

/-- Fold of one `stepUpd` over the list of ids returned by a sweep query. -/
def runSweep (reset fail : Row → Row) (tbl : List Row) (ids : List Nat) : List Row :=
  ids.foldl (stepUpd reset fail) tbl

lemma handle_stuck_operation_eq :
    handle_stuck_operation = stepUpd resetStuck failStuck := rfl

lemma handle_timeout_eq :
    handle_timeout = stepUpd resetTimeout failTimeout := rfl

lemma check_stuck_operations_eq (now : Nat) (tbl : List Row) :
    check_stuck_operations now tbl =
      runSweep resetStuck failStuck tbl ((tbl.filter (stuckPred now)).map Row.id) := rfl

lemma check_timed_out_operations_eq (now : Nat) (tbl : List Row) :
    check_timed_out_operations now tbl =
      runSweep resetTimeout failTimeout tbl ((tbl.filter (timeoutPred now)).map Row.id) := rfl

lemma updateById_getElem? (opId : Nat) (f : Row → Row) (tbl : List Row) (i : Nat) :
    (updateById opId f tbl)[i]? = (tbl[i]?).map (fun r => if r.id = opId then f r else r) :=
  List.getElem?_map ..

lemma stepUpd_getElem? (reset fail : Row → Row) (tbl : List Row) (opId i : Nat) :
    (stepUpd reset fail tbl opId)[i]? =
      (tbl[i]?).map (fun r =>
        if r.id = opId then
          (if getRetryCount tbl opId < MAX_RETRIES then reset r else fail r)
        else r) := by
  unfold stepUpd
  split <;> simp [updateById_getElem?, *]

lemma stepUpd_length (reset fail : Row → Row) (tbl : List Row) (opId : Nat) :
    (stepUpd reset fail tbl opId).length = tbl.length := by
  unfold stepUpd updateById
  split <;> simp

lemma runSweep_length (reset fail : Row → Row) :
    ∀ (ids : List Nat) (tbl : List Row),
      (runSweep reset fail tbl ids).length = tbl.length := by
  intro ids
  induction ids with
  | nil => intro tbl; rfl
  | cons a ids ih =>
      intro tbl
      show (runSweep reset fail (stepUpd reset fail tbl a) ids).length = tbl.length
      rw [ih, stepUpd_length]

/-- The facts about a reset/fail pair that the sweep lemmas use; both the
stuck pair and the timeout pair satisfy them. -/
structure SweepLaws (reset fail : Row → Row) : Prop where
  reset_id : ∀ r, (reset r).id = r.id
  fail_id : ∀ r, (fail r).id = r.id
  reset_status : ∀ r, (reset r).status = Status.pending
  fail_status : ∀ r, (fail r).status = Status.failed
  reset_retry : ∀ r, (reset r).retry_count = r.retry_count + 1
  fail_retry : ∀ r, (fail r).retry_count = r.retry_count

lemma stuckLaws : SweepLaws resetStuck failStuck :=
  ⟨fun _ => rfl, fun _ => rfl, fun _ => rfl, fun _ => rfl, fun _ => rfl, fun _ => rfl⟩

lemma timeoutLaws : SweepLaws resetTimeout failTimeout :=
  ⟨fun _ => rfl, fun _ => rfl, fun _ => rfl, fun _ => rfl, fun _ => rfl, fun _ => rfl⟩

lemma runSweep_untouched {reset fail : Row → Row} (ids : List Nat) :
    ∀ (tbl : List Row) (i : Nat) (r : Row),
      tbl[i]? = some r → r.id ∉ ids → (runSweep reset fail tbl ids)[i]? = some r := by
  induction ids with
  | nil => intro tbl i r h _; exact h
  | cons a ids ih =>
      intro tbl i r h hnot
      have ha : r.id ≠ a := fun e => hnot (by rw [e]; exact List.mem_cons_self a ids)
      show (runSweep reset fail (stepUpd reset fail tbl a) ids)[i]? = some r
      refine ih _ i r ?_ (fun hm => hnot (List.mem_cons_of_mem a hm))
      rw [stepUpd_getElem?, h]
      simp [ha]

lemma runSweep_id {reset fail : Row → Row} (hL : SweepLaws reset fail) (ids : List Nat) :
    ∀ (tbl : List Row) (i : Nat),
      ((runSweep reset fail tbl ids)[i]?).map Row.id = (tbl[i]?).map Row.id := by
  induction ids with
  | nil => intro tbl i; rfl
  | cons a ids ih =>
      intro tbl i
      show ((runSweep reset fail (stepUpd reset fail tbl a) ids)[i]?).map Row.id = _
      rw [ih, stepUpd_getElem?]
      cases h : tbl[i]? with
      | none => rfl
      | some r =>
          simp only [Option.map_some']
          congr 1
          split
          · split
            · exact hL.reset_id r
            · exact hL.fail_id r
          · rfl

lemma runSweep_map_id {reset fail : Row → Row} (hL : SweepLaws reset fail)
    (ids : List Nat) (tbl : List Row) :
    (runSweep reset fail tbl ids).map Row.id = tbl.map Row.id := by
  apply List.ext_getElem?
  intro i
  rw [List.getElem?_map, List.getElem?_map, runSweep_id hL]

lemma stepUpd_map_id {reset fail : Row → Row} (hL : SweepLaws reset fail)
    (tbl : List Row) (a : Nat) :
    (stepUpd reset fail tbl a).map Row.id = tbl.map Row.id :=
  runSweep_map_id hL [a] tbl

lemma runSweep_processing_src {reset fail : Row → Row} (hL : SweepLaws reset fail)
    (ids : List Nat) :
    ∀ (tbl : List Row) (i : Nat) (r' : Row),
      (runSweep reset fail tbl ids)[i]? = some r' → r'.status = Status.processing →
        tbl[i]? = some r' := by
  induction ids with
  | nil => intro tbl i r' h _; exact h
  | cons a ids ih =>
      intro tbl i r' h hp
      have h1 : (stepUpd reset fail tbl a)[i]? = some r' := ih _ i r' h hp
      rw [stepUpd_getElem?] at h1
      cases h0 : tbl[i]? with
      | none => rw [h0] at h1; exact absurd h1 (by simp)
      | some r =>
          rw [h0] at h1
          simp only [Option.map_some', Option.some.injEq] at h1
          by_cases hra : r.id = a
          · exfalso
            rw [if_pos hra] at h1
            by_cases hc : getRetryCount tbl a < MAX_RETRIES
            · rw [if_pos hc] at h1
              rw [← h1, hL.reset_status] at hp
              exact Status.noConfusion hp
            · rw [if_neg hc] at h1
              rw [← h1, hL.fail_status] at hp
              exact Status.noConfusion hp
          · rw [if_neg hra] at h1
            exact congrArg some h1

lemma runSweep_pf_stable {reset fail : Row → Row} (hL : SweepLaws reset fail)
    (ids : List Nat) :
    ∀ (tbl : List Row) (i : Nat) (r : Row),
      tbl[i]? = some r → (r.status = Status.pending ∨ r.status = Status.failed) →
        ∃ r', (runSweep reset fail tbl ids)[i]? = some r' ∧
          (r'.status = Status.pending ∨ r'.status = Status.failed) := by
  induction ids with
  | nil => intro tbl i r h hpf; exact ⟨r, h, hpf⟩
  | cons a ids ih =>
      intro tbl i r h hpf
      have h1 : (stepUpd reset fail tbl a)[i]? =
          some (if r.id = a then
                  (if getRetryCount tbl a < MAX_RETRIES then reset r else fail r)
                else r) := by
        rw [stepUpd_getElem?, h]; rfl
      refine ih _ i _ h1 ?_
      split
      · split
        · exact Or.inl (hL.reset_status r)
        · exact Or.inr (hL.fail_status r)
      · exact hpf

lemma runSweep_selected {reset fail : Row → Row} (hL : SweepLaws reset fail)
    (ids : List Nat) :
    ∀ (tbl : List Row) (i : Nat) (r : Row),
      tbl[i]? = some r → r.id ∈ ids →
        ∃ r', (runSweep reset fail tbl ids)[i]? = some r' ∧
          (r'.status = Status.pending ∨ r'.status = Status.failed) := by
  induction ids with
  | nil => intro tbl i r _ hm; exact absurd hm (List.not_mem_nil _)
  | cons a ids ih =>
      intro tbl i r h hm
      by_cases hra : r.id = a
      · have h1 : (stepUpd reset fail tbl a)[i]? =
            some (if getRetryCount tbl a < MAX_RETRIES then reset r else fail r) := by
          rw [stepUpd_getElem?, h]
          simp [hra]
        refine runSweep_pf_stable hL ids _ i _ h1 ?_
        split
        · exact Or.inl (hL.reset_status r)
        · exact Or.inr (hL.fail_status r)
      · have hm' : r.id ∈ ids := by
          cases List.mem_cons.mp hm with
          | inl e => exact absurd e hra
          | inr m => exact m
        have h1 : (stepUpd reset fail tbl a)[i]? = some r := by
          rw [stepUpd_getElem?, h]
          simp [hra]
        exact ih _ i r h1 hm'

lemma runSweep_retry_mono {reset fail : Row → Row} (hL : SweepLaws reset fail)
    (ids : List Nat) :
    ∀ (tbl : List Row) (i : Nat) (r : Row),
      tbl[i]? = some r →
        ∃ r', (runSweep reset fail tbl ids)[i]? = some r' ∧
          r.retry_count ≤ r'.retry_count := by
  induction ids with
  | nil => intro tbl i r h; exact ⟨r, h, le_refl _⟩
  | cons a ids ih =>
      intro tbl i r h
      have h1 : (stepUpd reset fail tbl a)[i]? =
          some (if r.id = a then
                  (if getRetryCount tbl a < MAX_RETRIES then reset r else fail r)
                else r) := by
        rw [stepUpd_getElem?, h]; rfl
      obtain ⟨r', hr', hle⟩ := ih _ i _ h1
      refine ⟨r', hr', le_trans ?_ hle⟩
      split
      · split
        · rw [hL.reset_retry]; exact Nat.le_succ _
        · rw [hL.fail_retry]
      · exact le_refl _

/-! ### Nodup machinery: ids are primary keys, so tables have distinct ids -/

lemma find?_id_of_nodup :
    ∀ (tbl : List Row) (i : Nat) (r : Row), (tbl.map Row.id).Nodup →
      tbl[i]? = some r → tbl.find? (fun x => x.id == r.id) = some r := by
  intro tbl
  induction tbl with
  | nil => intro i r _ h; simp at h
  | cons x t ih =>
      intro i r hN h
      cases i with
      | zero =>
          rw [List.getElem?_cons_zero, Option.some.injEq] at h
          subst h
          exact List.find?_cons_of_pos _ (by simp)
      | succ j =>
          rw [List.getElem?_cons_succ] at h
          have hmem : r ∈ t := List.mem_iff_getElem?.mpr ⟨j, h⟩
          rw [List.map_cons, List.nodup_cons] at hN
          have hx : x.id ≠ r.id := fun e =>
            hN.1 (e ▸ List.mem_map_of_mem Row.id hmem)
          rw [List.find?_cons_of_neg _ (by simp [hx])]
          exact ih j r hN.2 h

lemma getRetryCount_of_nodup (tbl : List Row) (i : Nat) (r : Row)
    (hN : (tbl.map Row.id).Nodup) (h : tbl[i]? = some r) :
    getRetryCount tbl r.id = r.retry_count := by
  unfold getRetryCount
  rw [find?_id_of_nodup tbl i r hN h]
  rfl

lemma row_eq_of_id_eq (tbl : List Row) (hN : (tbl.map Row.id).Nodup)
    {r s : Row} (hr : r ∈ tbl) (hs : s ∈ tbl) (e : r.id = s.id) : r = s :=
  List.inj_on_of_nodup_map hN hr hs e

/-- With distinct ids and a duplicate-free id worklist, a selected row is
handled exactly once, with the branch decided by its own `retry_count`. -/
lemma runSweep_once {reset fail : Row → Row} (hL : SweepLaws reset fail) :
    ∀ (ids : List Nat) (tbl : List Row) (i : Nat) (r : Row),
      (tbl.map Row.id).Nodup → ids.Nodup → tbl[i]? = some r → r.id ∈ ids →
        (runSweep reset fail tbl ids)[i]? =
          some (if r.retry_count < MAX_RETRIES then reset r else fail r) := by
  intro ids
  induction ids with
  | nil => intro tbl i r _ _ _ hm; exact absurd hm (List.not_mem_nil _)
  | cons a ids ih =>
      intro tbl i r hN hD h hm
      rw [List.nodup_cons] at hD
      by_cases hra : r.id = a
      · have hg : getRetryCount tbl a = r.retry_count := by
          rw [← hra]; exact getRetryCount_of_nodup tbl i r hN h
        have h1 : (stepUpd reset fail tbl a)[i]? =
            some (if r.retry_count < MAX_RETRIES then reset r else fail r) := by
          rw [stepUpd_getElem?, h, Option.map_some', if_pos hra, hg]
        show (runSweep reset fail (stepUpd reset fail tbl a) ids)[i]? = _
        refine runSweep_untouched ids _ i _ h1 ?_
        have : (if r.retry_count < MAX_RETRIES then reset r else fail r).id = a := by
          split
          · rw [hL.reset_id, hra]
          · rw [hL.fail_id, hra]
        rw [this]
        exact hD.1
      · have hm' : r.id ∈ ids := by
          cases List.mem_cons.mp hm with
          | inl e => exact absurd e hra
          | inr m => exact m
        have h1 : (stepUpd reset fail tbl a)[i]? = some r := by
          rw [stepUpd_getElem?, h, Option.map_some', if_neg hra]
        have hN' : ((stepUpd reset fail tbl a).map Row.id).Nodup := by
          rw [stepUpd_map_id hL]; exact hN
        exact ih _ i r hN' hD.2 h1 hm'

/-- A single `stepUpd` keeps `retry_count ≤ MAX_RETRIES` on every row,
because the reset branch only fires when the targeted row's count is below
the bound. -/
lemma stepUpd_bound {reset fail : Row → Row} (hL : SweepLaws reset fail)
    (tbl : List Row) (a : Nat) (hN : (tbl.map Row.id).Nodup)
    (hB : ∀ r ∈ tbl, r.retry_count ≤ MAX_RETRIES) :
    ∀ r' ∈ stepUpd reset fail tbl a, r'.retry_count ≤ MAX_RETRIES := by
  intro r' hr'
  unfold stepUpd at hr'
  by_cases hc : getRetryCount tbl a < MAX_RETRIES
  · rw [if_pos hc] at hr'
    unfold updateById at hr'
    obtain ⟨r, hr, e⟩ := List.mem_map.mp hr'
    by_cases hra : r.id = a
    · rw [if_pos hra] at e
      obtain ⟨j, hj⟩ := List.mem_iff_getElem?.mp hr
      have hg : getRetryCount tbl a = r.retry_count := by
        rw [← hra]; exact getRetryCount_of_nodup tbl j r hN hj
      rw [← e, hL.reset_retry]
      rw [hg] at hc
      exact hc
    · rw [if_neg hra] at e
      exact e ▸ hB r hr
  · rw [if_neg hc] at hr'
    unfold updateById at hr'
    obtain ⟨r, hr, e⟩ := List.mem_map.mp hr'
    by_cases hra : r.id = a
    · rw [if_pos hra] at e
      rw [← e, hL.fail_retry]
      exact hB r hr
    · rw [if_neg hra] at e
      exact e ▸ hB r hr

lemma runSweep_bound {reset fail : Row → Row} (hL : SweepLaws reset fail) :
    ∀ (ids : List Nat) (tbl : List Row), (tbl.map Row.id).Nodup →
      (∀ r ∈ tbl, r.retry_count ≤ MAX_RETRIES) →
        ∀ r' ∈ runSweep reset fail tbl ids, r'.retry_count ≤ MAX_RETRIES := by
  intro ids
  induction ids with
  | nil => intro tbl _ hB r' hr'; exact hB r' hr'
  | cons a ids ih =>
      intro tbl hN hB r' hr'
      exact ih _ (by rw [stepUpd_map_id hL]; exact hN)
        (stepUpd_bound hL tbl a hN hB) r' hr'

lemma stuckPred_processing {now : Nat} {r : Row} (h : stuckPred now r = true) :
    r.status = Status.processing := by
  unfold stuckPred at h
  exact of_decide_eq_true (Bool.and_elim_left h)

lemma timeoutPred_processing {now : Nat} {r : Row} (h : timeoutPred now r = true) :
    r.status = Status.processing := by
  unfold timeoutPred at h
  exact of_decide_eq_true (Bool.and_elim_left h)

/-- A row older than one hour is in particular older than 30 minutes:
the timeout query selects a subset of the stuck query. -/
lemma stuck_of_timeout {now : Nat} {r : Row} (h : timeoutPred now r = true) :
    stuckPred now r = true := by
  unfold timeoutPred at h
  unfold stuckPred
  rw [Bool.and_eq_true] at h ⊢
  refine ⟨h.1, ?_⟩
  cases hs : r.started_at with
  | none => rw [hs] at h; exact absurd h.2 (by simp)
  | some t =>
      rw [hs] at h
      have ht : t + MAX_OPERATION_TIME < now := of_decide_eq_true h.2
      have : t + STUCK_THRESHOLD < now :=
        lt_of_le_of_lt (by unfold STUCK_THRESHOLD MAX_OPERATION_TIME; omega) ht
      simpa using this

lemma stuck_ids_nodup (now : Nat) (tbl : List Row) (hN : (tbl.map Row.id).Nodup) :
    ((tbl.filter (stuckPred now)).map Row.id).Nodup :=
  hN.sublist ((List.filter_sublist tbl).map Row.id)

lemma timeout_ids_nodup (now : Nat) (tbl : List Row) (hN : (tbl.map Row.id).Nodup) :
    ((tbl.filter (timeoutPred now)).map Row.id).Nodup :=
  hN.sublist ((List.filter_sublist tbl).map Row.id)

/-- A row that is not `processing` is not selected by the timeout sweep and
(given distinct ids) is left untouched by it. -/
lemma check_timed_skip (now : Nat) (tbl : List Row) (hN : (tbl.map Row.id).Nodup)
    (i : Nat) (r : Row) (h : tbl[i]? = some r)
    (hnp : r.status ≠ Status.processing) :
    (check_timed_out_operations now tbl)[i]? = some r := by
  rw [check_timed_out_operations_eq]
  refine runSweep_untouched _ tbl i r h ?_
  intro hm
  obtain ⟨s, hs, e⟩ := List.mem_map.mp hm
  rw [List.mem_filter] at hs
  have hrmem : r ∈ tbl := List.mem_iff_getElem?.mpr ⟨i, h⟩
  have : s = r := row_eq_of_id_eq tbl hN hs.1 hrmem e
  exact hnp (this ▸ timeoutPred_processing hs.2)

/-- After the stuck sweep, no row still matches the timeout query. -/
lemma timeout_filter_after_stuck (now : Nat) (tbl : List Row) :
    (check_stuck_operations now tbl).filter (timeoutPred now) = [] := by
  rw [List.filter_eq_nil_iff]
  intro a ha hta
  obtain ⟨i, hi⟩ := List.mem_iff_getElem?.mp ha
  have hproc : a.status = Status.processing := timeoutPred_processing hta
  have hrs : (runSweep resetStuck failStuck tbl
      ((tbl.filter (stuckPred now)).map Row.id))[i]? = some a := by
    rw [← check_stuck_operations_eq]; exact hi
  have horig : tbl[i]? = some a :=
    runSweep_processing_src stuckLaws _ tbl i a hrs hproc
  have hstuck : stuckPred now a = true := stuck_of_timeout hta
  have hmem : a.id ∈ (tbl.filter (stuckPred now)).map Row.id := by
    refine List.mem_map_of_mem Row.id ?_
    exact List.mem_filter.mpr ⟨List.mem_iff_getElem?.mpr ⟨i, horig⟩, hstuck⟩
  obtain ⟨r', hr', hpf⟩ := runSweep_selected stuckLaws _ tbl i a horig hmem
  rw [← check_stuck_operations_eq, hi, Option.some.injEq] at hr'
  cases hpf with
  | inl hp => rw [hr', hp] at hproc; exact Status.noConfusion hproc
  | inr hf => rw [hr', hf] at hproc; exact Status.noConfusion hproc

/-- The timeout check after the stuck check is the identity: its query is
empty, so the non-midnight Watchdog cycle is the stuck check alone. -/
lemma watchdogCycle_eq_check_stuck (now : Nat) (tbl : List Row) :
    watchdogCycle now tbl = check_stuck_operations now tbl := by
  unfold watchdogCycle
  rw [check_timed_out_operations_eq, timeout_filter_after_stuck]
  rfl

/-! ### Concrete fixtures for counterexamples and witnesses -/

/-- A `source=ui` row sitting in `pending`. -/
def uiPendingRow : Row :=
  { id := 1, type := "user.create", data := "x", status := .pending,
    source := .ui, retry_count := 0, error := none, result := none,
    created_at := 100, started_at := none, completed_at := none }

/-- A `source=ui` row stuck in `processing` since time 0. -/
def uiProcessingRow : Row :=
  { uiPendingRow with id := 2, status := .processing, started_at := some 0 }

/-- A `source=api` row in `pending`, as the Dispatcher would pick it up. -/
def siteRow : Row :=
  { id := 1, type := "site.create", data := "x", status := .pending,
    source := .api, retry_count := 0, error := none, result := none,
    created_at := 0, started_at := none, completed_at := none }

/-- A row already in a terminal state, for the claim-step counterexample. -/
def completedRow : Row :=
  { siteRow with id := 7, status := .completed, started_at := some 1,
                 completed_at := some 2 }

/-- A `processing` row whose retries are exhausted, with `completed_at` null. -/
def exhaustedRow : Row :=
  { siteRow with id := 3, status := .processing, retry_count := 3,
                 started_at := some 0 }

/-- A `processing` row stuck since time 5 with one retry so far. -/
def stuckRow : Row :=
  { siteRow with id := 4, status := .processing, retry_count := 1,
                 started_at := some 5 }

/-- A terminal row past the 30-day retention cutoff at time 3000000. -/
def oldDoneRow : Row :=
  { siteRow with id := 6, status := .completed, started_at := some 1,
                 completed_at := some 2 }

/-- A handler oracle that does nothing and exits 0. -/
def idHandler : HandlerBehavior := fun _ _ _ tbl => (tbl, 0)

/-- A handler oracle that marks its operation `processing` (as the shipped
`manage_site.sh` does first) and then exits 0 without self-reporting a
terminal status — e.g. because it died after that first write. -/
def markProcessingHandler : HandlerBehavior :=
  fun _ _ opId tbl => (update_operation_status 200 tbl opId .processing "", 0)

/-! ### The claims -/

/-- C1: the claim says `source=ui` rows are never selected by the
Dispatcher's polling query and never mutated by the Watchdog's sweeps.  The
shipped code contradicts its own design documentation (which shows the
polling query with `AND source = 'api'` and a `should_handle_operation`
gate): the `queue_worker.sh` query filters only on `status = 'pending'`, so
it selects the ui row, and the `status_monitor.sh` stuck sweep filters only
on `status = 'processing'`, so it resets the ui row and bumps its
`retry_count`. -/
theorem c1_ui_rows_not_isolated :
    uiPendingRow.source = Source.ui ∧
    pendingOps [uiPendingRow] = [(1, "user.create")] ∧
    uiProcessingRow.source = Source.ui ∧
    (check_stuck_operations 10000 [uiProcessingRow]).map
        (fun r => (r.source, r.status, r.retry_count))
      = [(Source.ui, Status.pending, 1)] := by
  refine ⟨rfl, rfl, rfl, rfl⟩

/-- C2 counterexample: a registered, executable handler marks the row
`processing` and exits 0 without self-reporting; the claim says the
Dispatcher then sets `completed`, but `process_operation` only logs the
exit code — the row stays `processing`. -/
theorem c2_counterexample :
    (process_operation shippedHandlers (fun _ => true) markProcessingHandler
        300 [siteRow] 1 "site.create").code = 0 ∧
    (process_operation shippedHandlers (fun _ => true) markProcessingHandler
        300 [siteRow] 1 "site.create").table.map Row.status = [Status.processing] ∧
    (process_operation shippedHandlers (fun _ => true) markProcessingHandler
        300 [siteRow] 1 "site.create").table.map Row.status ≠ [Status.completed] := by
  refine ⟨rfl, rfl, by decide⟩

/-- C2 (amended): on handler exit the Dispatcher records nothing — whatever
table the handler leaves behind is final for that call, whatever the exit
code; a row still `processing` stays `processing`.  The Dispatcher writes a
terminal status only in its no-handler / not-executable branches. -/
theorem c2_dispatcher_records_nothing (handlers : String → String)
    (is_x : String → Bool) (hb : HandlerBehavior) (now : Nat) (tbl : List Row)
    (opId : Nat) (ty : String) (hne : handlers ty ≠ "")
    (hx : is_x (handlers ty) = true) :
    process_operation handlers is_x hb now tbl opId ty =
      { table := (hb (handlers ty) ty opId tbl).1,
        code := (hb (handlers ty) ty opId tbl).2,
        invoked := true } := by
  unfold process_operation
  rw [if_neg hne, if_pos hx]

/-- C2 witness: the amended theorem applied to the concrete fixture. -/
theorem c2_dispatcher_records_nothing_witness :
    process_operation shippedHandlers (fun _ => true) markProcessingHandler
        300 [siteRow] 1 "site.create" =
      { table := (markProcessingHandler (shippedHandlers "site.create")
                    "site.create" 1 [siteRow]).1,
        code := (markProcessingHandler (shippedHandlers "site.create")
                    "site.create" 1 [siteRow]).2,
        invoked := true } :=
  c2_dispatcher_records_nothing shippedHandlers (fun _ => true)
    markProcessingHandler 300 [siteRow] 1 "site.create" (by decide) rfl

lemma update_status_processing_getElem? (now : Nat) (tbl : List Row)
    (opId : Nat) (msg : String) (i : Nat) (r : Row) (h : tbl[i]? = some r) :
    (update_operation_status now tbl opId .processing msg)[i]? =
      some (if r.id = opId then
              { r with status := .processing, started_at := some now }
            else r) := by
  simp [update_operation_status, updateById_getElem?, h]

lemma update_status_completed_getElem? (now : Nat) (tbl : List Row)
    (opId : Nat) (msg : String) (i : Nat) (r : Row) (h : tbl[i]? = some r) :
    (update_operation_status now tbl opId .completed msg)[i]? =
      some (if r.id = opId then
              { r with status := .completed, completed_at := some now }
            else r) := by
  simp [update_operation_status, updateById_getElem?, h]

lemma update_status_failed_getElem? (now : Nat) (tbl : List Row)
    (opId : Nat) (msg : String) (i : Nat) (r : Row) (h : tbl[i]? = some r) :
    (update_operation_status now tbl opId .failed msg)[i]? =
      some (if r.id = opId then
              { r with status := .failed, completed_at := some now, error := some msg }
            else r) := by
  simp [update_operation_status, updateById_getElem?, h]

/-- C3 counterexample: the claim says nothing ever marks a non-`pending` row
as `processing`, and that a claim attempt on such a row leaves it unchanged.
`update_operation_status` has no status guard: applied to a `completed` row
it sets `status='processing'` and `started_at=now`. -/
theorem c3_counterexample :
    completedRow.status = Status.completed ∧
    (update_operation_status 500 [completedRow] 7 .processing "").map
        (fun r => (r.status, r.started_at)) = [(Status.processing, some 500)] :=
  ⟨rfl, rfl⟩

/-- C3 (amended): the subsystem has no compare-and-set claim step at all.
`update_operation_status(id,'processing')` unconditionally sets
`status='processing'` and `started_at=now` on the matching row whatever its
current state, and the Dispatcher itself never writes `processing`: run with
an inert handler, `process_operation` leaves every row unchanged or marks it
`failed` in its no-handler / not-executable branches. -/
theorem c3_no_claim_step (now : Nat) (tbl : List Row) (opId : Nat)
    (msg : String) (i : Nat) (r : Row) (h : tbl[i]? = some r) :
    ((update_operation_status now tbl opId .processing msg)[i]? =
      some (if r.id = opId then
              { r with status := .processing, started_at := some now }
            else r)) ∧
    (∀ (handlers : String → String) (is_x : String → Bool) (ty : String),
      ∃ r', ((process_operation handlers is_x idHandler now tbl opId ty).table)[i]?
          = some r' ∧ (r' = r ∨ r'.status = Status.failed)) := by
  constructor
  · exact update_status_processing_getElem? now tbl opId msg i r h
  · intro handlers is_x ty
    simp only [process_operation]
    by_cases h0 : handlers ty = ""
    · rw [if_pos h0]
      have hg := update_status_failed_getElem? now tbl opId
        "No handler configured" i r h
      by_cases hid : r.id = opId
      · rw [if_pos hid] at hg
        exact ⟨_, hg, Or.inr rfl⟩
      · rw [if_neg hid] at hg
        exact ⟨r, hg, Or.inl rfl⟩
    · rw [if_neg h0]
      by_cases hx : is_x (handlers ty)
      · rw [if_pos hx]
        exact ⟨r, h, Or.inl rfl⟩
      · rw [if_neg hx]
        have hg := update_status_failed_getElem? now tbl opId
          "Handler script not available" i r h
        by_cases hid : r.id = opId
        · rw [if_pos hid] at hg
          exact ⟨_, hg, Or.inr rfl⟩
        · rw [if_neg hid] at hg
          exact ⟨r, hg, Or.inl rfl⟩

/-- C3 witness: the unconditional update applied to the terminal fixture. -/
theorem c3_no_claim_step_witness :
    (update_operation_status 500 [completedRow] 7 .processing "")[0]? =
      some { completedRow with status := .processing, started_at := some 500 } :=
  ((c3_no_claim_step 500 [completedRow] 7 "" 0 completedRow rfl).1).trans (by rfl)

/-- C5 counterexample: the Watchdog's retry-exhaustion path marks a row
`failed` (a terminal status) while leaving `completed_at` null, refuting the
claim that every transition into a terminal status records
`completed_at=now`. -/
theorem c5_counterexample :
    exhaustedRow.status = Status.processing ∧
    exhaustedRow.retry_count = MAX_RETRIES ∧
    exhaustedRow.completed_at = none ∧
    (handle_stuck_operation [exhaustedRow] 3).map
        (fun r => (r.status, r.completed_at)) = [(Status.failed, none)] :=
  ⟨rfl, rfl, rfl, rfl⟩

/-- C5 (amended): terminal transitions that go through
`update_operation_status` (handler self-report and the Dispatcher's failure
branches) do set `completed_at=now`, but the Watchdog's retry-exhaustion
update marks the row `failed` without touching `completed_at`, so a row
failed by exhaustion can be terminal with `completed_at` null. -/
theorem c5_completed_at_paths (now : Nat) (tbl : List Row) (opId : Nat)
    (msg : String) (i : Nat) (r : Row) (h : tbl[i]? = some r) :
    ((update_operation_status now tbl opId .completed msg)[i]? =
      some (if r.id = opId then
              { r with status := .completed, completed_at := some now }
            else r)) ∧
    ((update_operation_status now tbl opId .failed msg)[i]? =
      some (if r.id = opId then
              { r with status := .failed, completed_at := some now, error := some msg }
            else r)) ∧
    (MAX_RETRIES ≤ getRetryCount tbl opId →
      (handle_stuck_operation tbl opId)[i]? =
          some (if r.id = opId then failStuck r else r) ∧
      (failStuck r).completed_at = r.completed_at ∧
      (failStuck r).status = Status.failed) := by
  refine ⟨update_status_completed_getElem? now tbl opId msg i r h,
    update_status_failed_getElem? now tbl opId msg i r h,
    fun hmax => ⟨?_, rfl, rfl⟩⟩
  rw [handle_stuck_operation_eq, stepUpd_getElem?, h, Option.map_some']
  have hnc : ¬ getRetryCount tbl opId < MAX_RETRIES := not_lt.mpr hmax
  simp [hnc]

/-- C5 witness: the exhaustion branch at the concrete fixture. -/
theorem c5_completed_at_paths_witness :
    (handle_stuck_operation [exhaustedRow] 3)[0]? = some (failStuck exhaustedRow) := by
  have hb := ((c5_completed_at_paths 999 [exhaustedRow] 3 "" 0 exhaustedRow
    rfl).2.2 (by decide)).1
  exact hb.trans (by rfl)

/-- C6 counterexample: the claim says the retry reset clears `started_at`
and `completed_at`; the Watchdog's reset `UPDATE` touches only `status`,
`retry_count` and `error`, so `started_at` survives. -/
theorem c6_counterexample :
    stuckRow.started_at = some 5 ∧
    (handle_stuck_operation [stuckRow] 4).map
        (fun r => (r.status, r.retry_count, r.started_at, r.completed_at))
      = [(Status.pending, 2, some 5, none)] :=
  ⟨rfl, rfl⟩

/-- C6 (amended): for a row below the retry bound, the Watchdog reset sets
`status='pending'`, increments `retry_count` by exactly one and records the
note in `error`, leaving every other field — in particular `started_at` and
`completed_at` — unchanged (it does not clear them). -/
theorem c6_reset_preserves_fields (tbl : List Row) (opId : Nat)
    (hc : getRetryCount tbl opId < MAX_RETRIES) (i : Nat) (r : Row)
    (h : tbl[i]? = some r) :
    ((handle_stuck_operation tbl opId)[i]? =
        some (if r.id = opId then resetStuck r else r)) ∧
    ((handle_timeout tbl opId)[i]? =
        some (if r.id = opId then resetTimeout r else r)) ∧
    (resetStuck r).status = Status.pending ∧
    (resetStuck r).retry_count = r.retry_count + 1 ∧
    (resetStuck r).error = some "Operation stuck - attempting retry" ∧
    (resetStuck r).started_at = r.started_at ∧
    (resetStuck r).completed_at = r.completed_at ∧
    (resetStuck r).id = r.id ∧ (resetStuck r).type = r.type ∧
    (resetStuck r).data = r.data ∧ (resetStuck r).source = r.source ∧
    (resetStuck r).result = r.result ∧
    (resetStuck r).created_at = r.created_at ∧
    (resetTimeout r).started_at = r.started_at ∧
    (resetTimeout r).completed_at = r.completed_at := by
  refine ⟨?_, ?_, rfl, rfl, rfl, rfl, rfl, rfl, rfl, rfl, rfl, rfl, rfl, rfl, rfl⟩
  · rw [handle_stuck_operation_eq, stepUpd_getElem?, h, Option.map_some']
    simp [hc]
  · rw [handle_timeout_eq, stepUpd_getElem?, h, Option.map_some']
    simp [hc]

/-- C6 witness: the reset at the concrete fixture keeps `started_at`. -/
theorem c6_reset_preserves_fields_witness :
    (handle_stuck_operation [stuckRow] 4)[0]? = some (resetStuck stuckRow) ∧
    (resetStuck stuckRow).started_at = some 5 := by
  have hd := c6_reset_preserves_fields [stuckRow] 4 (by decide) 0 stuckRow rfl
  exact ⟨hd.1.trans (by rfl), rfl⟩

lemma updateById_retry_eq (opId : Nat) (f : Row → Row)
    (hf : ∀ r, (f r).retry_count = r.retry_count) (tbl : List Row) (i : Nat) :
    ((updateById opId f tbl)[i]?).map Row.retry_count
      = (tbl[i]?).map Row.retry_count := by
  rw [updateById_getElem?]
  cases tbl[i]? with
  | none => rfl
  | some r =>
      simp only [Option.map_some', Option.some.injEq]
      split
      · rw [hf]
      · rfl

/-- C4: `retry_count` starts at 0 (enqueue is modelled from the spec), is
never changed by `update_operation_status`, only grows across a Watchdog
cycle, stays bounded by `MAX_RETRIES` when it starts bounded, and a stuck
`processing` row that has already reached `MAX_RETRIES` is marked `failed`
(its count unchanged) instead of being reset. -/
theorem c4_retry_count_props (now newId : Nat) (ty payload : String)
    (src : Source) (tbl : List Row) (hN : (tbl.map Row.id).Nodup)
    (hB : ∀ r ∈ tbl, r.retry_count ≤ MAX_RETRIES) :
    (∀ r ∈ enqueue now newId ty payload src tbl, r ∈ tbl ∨ r.retry_count = 0) ∧
    (∀ (opId : Nat) (st : Status) (msg : String) (i : Nat),
      ((update_operation_status now tbl opId st msg)[i]?).map Row.retry_count
        = (tbl[i]?).map Row.retry_count) ∧
    (∀ (i : Nat) (r : Row), tbl[i]? = some r →
      ∃ r', (watchdogCycle now tbl)[i]? = some r' ∧
        r.retry_count ≤ r'.retry_count) ∧
    (∀ r' ∈ watchdogCycle now tbl, r'.retry_count ≤ MAX_RETRIES) ∧
    (∀ (i : Nat) (r : Row), tbl[i]? = some r → stuckPred now r = true →
      MAX_RETRIES ≤ r.retry_count →
      (check_stuck_operations now tbl)[i]? = some (failStuck r)) := by
  refine ⟨?_, ?_, ?_, ?_, ?_⟩
  · intro r hr
    rcases List.mem_append.mp hr with hl | hr1
    · exact Or.inl hl
    · rw [List.mem_singleton] at hr1
      exact Or.inr (by rw [hr1])
  · intro opId st msg i
    cases st with
    | pending => rfl
    | processing =>
        exact updateById_retry_eq opId
          (fun r => { r with status := .processing, started_at := some now })
          (fun _ => rfl) tbl i
    | completed =>
        exact updateById_retry_eq opId
          (fun r => { r with status := .completed, completed_at := some now })
          (fun _ => rfl) tbl i
    | failed =>
        exact updateById_retry_eq opId
          (fun r => { r with status := .failed, completed_at := some now,
                             error := some msg })
          (fun _ => rfl) tbl i
  · intro i r h
    obtain ⟨r1, h1, le1⟩ := runSweep_retry_mono stuckLaws _ tbl i r h
    obtain ⟨r2, h2, le2⟩ := runSweep_retry_mono timeoutLaws _
      (check_stuck_operations now tbl) i r1
      (by rw [check_stuck_operations_eq]; exact h1)
    refine ⟨r2, ?_, le_trans le1 le2⟩
    show (check_timed_out_operations now (check_stuck_operations now tbl))[i]? = some r2
    rw [check_timed_out_operations_eq]
    exact h2
  · intro r' hr'
    have hN1 : ((check_stuck_operations now tbl).map Row.id).Nodup := by
      rw [check_stuck_operations_eq, runSweep_map_id stuckLaws]
      exact hN
    have hB1 : ∀ s ∈ check_stuck_operations now tbl, s.retry_count ≤ MAX_RETRIES := by
      intro s hs
      rw [check_stuck_operations_eq] at hs
      exact runSweep_bound stuckLaws _ tbl hN hB s hs
    have hr2 : r' ∈ check_timed_out_operations now (check_stuck_operations now tbl) := hr'
    rw [check_timed_out_operations_eq] at hr2
    exact runSweep_bound timeoutLaws _ _ hN1 hB1 r' hr2
  · intro i r h hs hmax
    rw [check_stuck_operations_eq]
    have hmem : r.id ∈ (tbl.filter (stuckPred now)).map Row.id :=
      List.mem_map_of_mem Row.id
        (List.mem_filter.mpr ⟨List.mem_iff_getElem?.mpr ⟨i, h⟩, hs⟩)
    rw [runSweep_once stuckLaws _ tbl i r hN (stuck_ids_nodup now tbl hN) h hmem,
      if_neg (not_lt.mpr hmax)]

/-- C4 witness: the exhaustion branch of the invariant at the fixture. -/
theorem c4_retry_count_props_witness :
    (check_stuck_operations 10000 [exhaustedRow])[0]? = some (failStuck exhaustedRow) :=
  (c4_retry_count_props 10000 0 "t" "d" Source.api [exhaustedRow]
    (by decide) (by decide)).2.2.2.2 0 exhaustedRow rfl (by decide) (by decide)

/-- C7: every `processing` row whose `started_at` is more than
`STUCK_THRESHOLD` in the past at the start of a Watchdog cycle is out of
`processing` by the end of the cycle — reset to `pending` when its
`retry_count` is below `MAX_RETRIES`, marked `failed` otherwise. -/
theorem c7_stuck_resolved_within_cycle (now : Nat) (tbl : List Row)
    (hN : (tbl.map Row.id).Nodup) (i : Nat) (r : Row)
    (h : tbl[i]? = some r) (hs : stuckPred now r = true) :
    ∃ r', (watchdogCycle now tbl)[i]? = some r' ∧
      r'.status ≠ Status.processing ∧
      (r.retry_count < MAX_RETRIES → r' = resetStuck r) ∧
      (MAX_RETRIES ≤ r.retry_count → r' = failStuck r) := by
  have hmem : r.id ∈ (tbl.filter (stuckPred now)).map Row.id :=
    List.mem_map_of_mem Row.id
      (List.mem_filter.mpr ⟨List.mem_iff_getElem?.mpr ⟨i, h⟩, hs⟩)
  have h1 := runSweep_once stuckLaws _ tbl i r hN (stuck_ids_nodup now tbl hN) h hmem
  have hN1 : ((check_stuck_operations now tbl).map Row.id).Nodup := by
    rw [check_stuck_operations_eq, runSweep_map_id stuckLaws]
    exact hN
  by_cases hrc : r.retry_count < MAX_RETRIES
  · have h1' : (check_stuck_operations now tbl)[i]? = some (resetStuck r) := by
      rw [check_stuck_operations_eq, h1, if_pos hrc]
    refine ⟨resetStuck r, ?_, fun e => Status.noConfusion e, fun _ => rfl,
      fun hge => absurd hrc (not_lt.mpr hge)⟩
    show (check_timed_out_operations now (check_stuck_operations now tbl))[i]? = _
    exact check_timed_skip now _ hN1 i _ h1' (fun e => Status.noConfusion e)
  · have h1' : (check_stuck_operations now tbl)[i]? = some (failStuck r) := by
      rw [check_stuck_operations_eq, h1, if_neg hrc]
    refine ⟨failStuck r, ?_, fun e => Status.noConfusion e,
      fun hlt => absurd hlt hrc, fun _ => rfl⟩
    show (check_timed_out_operations now (check_stuck_operations now tbl))[i]? = _
    exact check_timed_skip now _ hN1 i _ h1' (fun e => Status.noConfusion e)

/-- C7 witness: the stuck fixture is reset within one cycle. -/
theorem c7_stuck_resolved_within_cycle_witness :
    (watchdogCycle 10000 [stuckRow])[0]? = some (resetStuck stuckRow) := by
  obtain ⟨r', h1, _, h3, _⟩ :=
    c7_stuck_resolved_within_cycle 10000 [stuckRow] (by decide) 0 stuckRow rfl (by decide)
  rw [h1, h3 (by decide)]

/-- C8: a terminal row whose `completed_at` is older than the retention
cutoff appears exactly once in the archive and not at all in the live table
after the sweep; rows the predicate does not select are carried over
unchanged (the live table is exactly the filter of the old one). -/
theorem c8_archive_sweep (now : Nat) (live archive : List Row) (r : Row)
    (ha : archivable now r = true) (h1 : live.count r = 1)
    (h0 : archive.count r = 0) :
    ((cleanup_old_operations now live archive).2).count r = 1 ∧
    ((cleanup_old_operations now live archive).1).count r = 0 ∧
    (∀ s ∈ live, archivable now s = false →
      s ∈ (cleanup_old_operations now live archive).1) ∧
    (cleanup_old_operations now live archive).1
      = live.filter (fun s => !archivable now s) := by
  refine ⟨?_, ?_, ?_, rfl⟩
  · show (archive ++ live.filter (archivable now)).count r = 1
    rw [List.count_append, h0, List.count_filter ha, h1]
  · show (live.filter (fun s => !archivable now s)).count r = 0
    rw [List.count_eq_zero]
    intro hmem
    rw [List.mem_filter] at hmem
    simp [ha] at hmem
  · intro s hs hsf
    exact List.mem_filter.mpr ⟨hs, by rw [hsf]; rfl⟩

/-- C8 witness: the old terminal fixture is moved exactly once. -/
theorem c8_archive_sweep_witness :
    ((cleanup_old_operations 3000000 [oldDoneRow] []).2).count oldDoneRow = 1 ∧
    ((cleanup_old_operations 3000000 [oldDoneRow] []).1).count oldDoneRow = 0 := by
  have hd := c8_archive_sweep 3000000 [oldDoneRow] [] oldDoneRow
    (by decide) (by decide) (by decide)
  exact ⟨hd.1, hd.2.1⟩

/-- C9: the stuck check runs first (definition of `watchdogCycle`), every
row matching the timeout query matches the stuck query, the timeout query
is empty after the stuck check, the full cycle equals the stuck check
alone, and (for tables with distinct ids) a row's `retry_count` grows by at
most one per cycle. -/
theorem c9_timeout_check_redundant (now : Nat) (tbl : List Row)
    (hN : (tbl.map Row.id).Nodup) :
    (∀ r : Row, timeoutPred now r = true → stuckPred now r = true) ∧
    ((check_stuck_operations now tbl).filter (timeoutPred now) = []) ∧
    (watchdogCycle now tbl = check_stuck_operations now tbl) ∧
    (∀ (i : Nat) (r r' : Row), tbl[i]? = some r →
      (watchdogCycle now tbl)[i]? = some r' →
      r'.retry_count ≤ r.retry_count + 1) := by
  refine ⟨fun _ h => stuck_of_timeout h, timeout_filter_after_stuck now tbl,
    watchdogCycle_eq_check_stuck now tbl, ?_⟩
  intro i r r' h h'
  rw [watchdogCycle_eq_check_stuck] at h'
  by_cases hmem : r.id ∈ (tbl.filter (stuckPred now)).map Row.id
  · have h1 := runSweep_once stuckLaws _ tbl i r hN (stuck_ids_nodup now tbl hN) h hmem
    rw [check_stuck_operations_eq, h1, Option.some.injEq] at h'
    rw [← h']
    split
    · exact le_of_eq (stuckLaws.reset_retry r)
    · rw [stuckLaws.fail_retry]
      exact Nat.le_succ _
  · have h1 : (check_stuck_operations now tbl)[i]? = some r := by
      rw [check_stuck_operations_eq]
      exact runSweep_untouched _ tbl i r h hmem
    rw [h1, Option.some.injEq] at h'
    rw [← h']
    exact Nat.le_succ _

/-- C9 witness: cycle equivalence at the stuck fixture. -/
theorem c9_timeout_check_redundant_witness :
    watchdogCycle 10000 [stuckRow] = check_stuck_operations 10000 [stuckRow] :=
  (c9_timeout_check_redundant 10000 [stuckRow] (by decide)).2.2.1

lemma shipped_mappings_space :
    ∀ ty ∈ shippedTypes, shippedHandlers ty ≠ "" ∧ hasSpace (shippedHandlers ty) = true := by
  decide

/-- C10: every shipped `operation_types.conf` mapping stores a script path
followed by a space and an argument as one string; `process_operation`
tests executability of that whole string as a single path, so under any
filesystem with no space-containing executable paths the test fails, the
operation is marked `failed` with error `Handler script not available`, and
the handler is never invoked. -/
theorem c10_shipped_handlers_unavailable (ty : String) (hty : ty ∈ shippedTypes)
    (is_x : String → Bool) (hb : HandlerBehavior) (now : Nat) (tbl : List Row)
    (opId : Nat) (hfs : ∀ p, hasSpace p = true → is_x p = false) :
    shippedHandlers ty ≠ "" ∧ hasSpace (shippedHandlers ty) = true ∧
    (process_operation shippedHandlers is_x hb now tbl opId ty).invoked = false ∧
    (process_operation shippedHandlers is_x hb now tbl opId ty).code = 1 ∧
    (process_operation shippedHandlers is_x hb now tbl opId ty).table =
      update_operation_status now tbl opId .failed "Handler script not available" := by
  obtain ⟨hne, hsp⟩ := shipped_mappings_space ty hty
  have hx' : ¬ (is_x (shippedHandlers ty) = true) := by
    rw [hfs _ hsp]
    exact Bool.false_ne_true
  refine ⟨hne, hsp, ?_, ?_, ?_⟩ <;>
    (simp only [process_operation]; rw [if_neg hne, if_neg hx'])

/-- C10 witness: the registry lookup and failure branch at `site.create`. -/
theorem c10_shipped_handlers_unavailable_witness :
    (process_operation shippedHandlers (fun _ => false) idHandler
        100 [siteRow] 1 "site.create").invoked = false ∧
    (process_operation shippedHandlers (fun _ => false) idHandler
        100 [siteRow] 1 "site.create").table.map (fun r => (r.status, r.error))
      = [(Status.failed, some "Handler script not available")] := by
  have hd := c10_shipped_handlers_unavailable "site.create" (by decide)
    (fun _ => false) idHandler 100 [siteRow] 1 (fun _ _ => rfl)
  exact ⟨hd.2.2.1, by rw [hd.2.2.2.2]; rfl⟩

end CloudPanel
